import Mathlib

/-!
Verification of the RetroArch joypad driver fragment: the Apple/Bluetooth
slot registry and dispatcher, the XInput driver's query/rumble/poll paths,
and the DirectInput enumeration with XInput aliasing.

Machine integers are modelled as Nat/Int.  Fixed C arrays are modelled as
total functions on Nat (or as lists of the array's length): an index beyond
the array bound reaches adjacent process memory, whose content the model
keeps as an arbitrary function value.  Calls into backends and outward
notifications are made explicit as returned event lists.
-/

/-- MAX_PLAYERS from general.h (header not under src/).  Modelled from the
spec: a pad index is an integer in [0, MAX_PLAYERS); this era of the code
fixes the constant at 16.  No claim depends on the numeric value. -/
def MAX_PLAYERS : Nat := 16

/-- enum retro_rumble_effect from libretro.h (not under src/): the strong
and weak channels, plus the dummy placeholder value of the enum. -/
inductive retro_rumble_effect where
  | strong
  | weak
  | dummy
deriving DecidableEq, Repr

/-- Modelled from the spec: an external Device Backend capability provider
(struct pad_connection_interface, defined in bluetooth code not under
src/).  The Bool fields record which function pointers are non-NULL; the
connectData field is the opaque payload its connect hook returns. -/
structure pad_connection_interface where
  connectData : Option Nat
  hasConnect : Bool
  hasDisconnect : Bool
  hasPacketHandler : Bool
  hasSetRumble : Bool
deriving DecidableEq, Repr

/-- joypad_slot_t: one entry of the static slots[MAX_PLAYERS] registry. -/
structure joypad_slot_t where
  used : Bool
  iface : Option pad_connection_interface
  data : Option Nat
  is_gcapi : Bool
deriving DecidableEq, Repr

/-- The all-zero slot produced by memset(&slots[i], 0, sizeof(slots[0])). -/
def emptySlot : joypad_slot_t :=
  { used := false, iface := none, data := none, is_gcapi := false }

/-- The statically zero-initialized registry at program start. -/
def initial_slots : List joypad_slot_t := List.replicate MAX_PLAYERS emptySlot

/-- Calls the registry makes into a backend interface. -/
inductive BackendCall where
  | connectCall (pad : Nat)
  | disconnectCall (data : Nat)
  | setRumbleCall (data : Option Nat) (effect : retro_rumble_effect) (strength : Nat)
deriving DecidableEq, Repr

/-- Recursion of find_vacant_pad over the slot array: the first slot with
used == false is zeroed (memset) and its index returned; none when every
slot is used.  The C loop bound MAX_PLAYERS equals the array length, so the
scan is structural recursion over the slot list. -/
def find_vacant_aux : List joypad_slot_t → Option (Nat × List joypad_slot_t)
  | [] => none
  | s :: rest =>
    if s.used then
      match find_vacant_aux rest with
      | none => none
      | some (i, rest1) => some (i + 1, s :: rest1)
    else
      some (0, emptySlot :: rest)

/-- find_vacant_pad: returns the zeroed first vacant index, or -1. -/
def find_vacant_pad (slots : List joypad_slot_t) : Int × List joypad_slot_t :=
  match find_vacant_aux slots with
  | none => (-1, slots)
  | some (i, slots1) => ((i : Int), slots1)

/-- Modelled from the spec: the external wiimote backend interface
(apple_pad_wii, bluetooth code not under src/); a capability provider with
all hooks present. -/
def apple_pad_wii : pad_connection_interface :=
  { connectData := some 1, hasConnect := true, hasDisconnect := true,
    hasPacketHandler := true, hasSetRumble := true }

/-- Modelled from the spec: the external DualShock3 backend interface
(apple_pad_ps3, bluetooth code not under src/). -/
def apple_pad_ps3 : pad_connection_interface :=
  { connectData := some 2, hasConnect := true, hasDisconnect := true,
    hasPacketHandler := true, hasSetRumble := true }

/-- The static pad_map table of joypad_connection_connect (the terminating
{0, 0} sentinel becomes the end of the list). -/
def pad_map : List (String × pad_connection_interface) :=
  [("Nintendo RVL-CNT-01", apple_pad_wii),
   ("PLAYSTATION(R)3 Controller", apple_pad_ps3)]

/-- strstr(hay, pat) != NULL: pat occurs as a substring of hay. -/
def strstr (hay pat : String) : Bool :=
  decide (List.IsInfix pat.data hay.data)

/-- The matching loop of joypad_connection_connect: for every pad_map entry
whose name occurs in the device name (strstr), the interface is installed
and its connect hook invoked; the loop has no break, so a later match
overwrites an earlier one.  When name is NULL the loop guard
(name && pad_map[i].name) fails at once. -/
def connect_pad_map_loop (name : Option String) (pad : Nat) (s : joypad_slot_t) :
    joypad_slot_t × List BackendCall :=
  match name with
  | none => (s, [])
  | some n =>
    pad_map.foldl
      (fun acc e =>
        if strstr n e.1 then
          ({ acc.1 with iface := some e.2, data := e.2.connectData },
           acc.2 ++ [BackendCall.connectCall pad])
        else acc)
      (s, [])

/-- joypad_connection_connect: allocates the first vacant slot, marks it
used, and runs the pad_map matching loop on it; returns the pad index
(or -1), the new registry, and the backend calls made. -/
def joypad_connection_connect (name : Option String) (slots : List joypad_slot_t) :
    Int × List joypad_slot_t × List BackendCall :=
  let r := find_vacant_pad slots
  let pad := r.1
  let slots1 := r.2
  if 0 ≤ pad ∧ pad < (MAX_PLAYERS : Int) then
    let p := pad.toNat
    let s1 := { slots1.getD p emptySlot with used := true }
    let r2 := connect_pad_map_loop name p s1
    (pad, slots1.set p r2.1, r2.2)
  else
    (pad, slots1, [])

/-- apple_joypad_disconnect: when the pad is in range and the slot used,
calls the backend disconnect hook (when interface, data and the hook are
all non-NULL) and zeroes the slot; otherwise does nothing. -/
def apple_joypad_disconnect (slots : List joypad_slot_t) (pad : Nat) :
    List joypad_slot_t × List BackendCall :=
  if pad < MAX_PLAYERS ∧ (slots.getD pad emptySlot).used = true then
    let s := slots.getD pad emptySlot
    let calls :=
      match s.iface, s.data with
      | some f, some d => if f.hasDisconnect then [BackendCall.disconnectCall d] else []
      | some _, none => []
      | none, _ => []
    (slots.set pad emptySlot, calls)
  else
    (slots, [])

/-- The backend calls one iteration of apple_joypad_destroy makes for one
slot: set_rumble with strength 0 on the strong then the weak channel, when
the slot is used and its interface has the hook. -/
def destroy_slot_calls (s : joypad_slot_t) : List BackendCall :=
  if s.used = true then
    match s.iface with
    | some f =>
      if f.hasSetRumble then
        [BackendCall.setRumbleCall s.data retro_rumble_effect.strong 0,
         BackendCall.setRumbleCall s.data retro_rumble_effect.weak 0]
      else []
    | none => []
  else []

/-- apple_joypad_destroy: loops over all MAX_PLAYERS slots stopping rumble;
it does not clear any slot. -/
def apple_joypad_destroy (slots : List joypad_slot_t) : List BackendCall :=
  (slots.map destroy_slot_calls).flatten

/-- apple_joypad_rumble: forwards to the backend set_rumble hook when the
pad is in range, the slot used, and the interface has the hook; otherwise
returns false.  The registry is never mutated. -/
def apple_joypad_rumble (slots : List joypad_slot_t) (pad : Nat)
    (effect : retro_rumble_effect) (strength : Nat) :
    Bool × List joypad_slot_t × List BackendCall :=
  let s := slots.getD pad emptySlot
  if pad < MAX_PLAYERS ∧ s.used = true then
    match s.iface with
    | some f =>
      if f.hasSetRumble then
        (true, slots, [BackendCall.setRumbleCall s.data effect strength])
      else (false, slots, [])
    | none => (false, slots, [])
  else (false, slots, [])

/-- apple_joypad_query_pad: returns pad < MAX_PLAYERS, nothing else. -/
def apple_joypad_query_pad (pad : Nat) : Bool :=
  decide (pad < MAX_PLAYERS)

/-- apple_joypad_name: always NULL. -/
def apple_joypad_name (_joypad : Nat) : Option String := none

/-- apple_input_data_t (apple_input.h, not under src/): the cached button
bitmasks and axis values the dispatcher reads.  Both arrays are modelled as
total functions on Nat row indices: a row index at or beyond MAX_PLAYERS
reaches adjacent process memory, whose content is whatever the function
yields there (apple_joypad_axis performs no bound check on the row). -/
structure apple_input_data_t where
  buttons : Nat → Nat
  axes : Nat → Nat → Int

/-- Modelled from the spec: NO_BTN key code (input_common.h, not under
src/). -/
def NO_BTN : Nat := 0xFFFF

/-- Modelled from the spec: the hat-direction mask of the 16-bit key code
(input_common.h, not under src/): the top four bits encode hat
directions. -/
def HAT_MASK : Nat := 0xF000

/-- GET_HAT_DIR(joykey). -/
def GET_HAT_DIR (joykey : Nat) : Nat := joykey &&& HAT_MASK

/-- Modelled from the spec: AXIS_NONE axis code (input_common.h, not under
src/). -/
def AXIS_NONE : Nat := 0xFFFFFFFF

/-- AXIS_NEG_GET: the negative-direction axis index, in the top half of the
32-bit axis code. -/
def AXIS_NEG_GET (joyaxis : Nat) : Nat := (joyaxis >>> 16) &&& 0xFFFF

/-- AXIS_POS_GET: the positive-direction axis index, in the bottom half. -/
def AXIS_POS_GET (joyaxis : Nat) : Nat := joyaxis &&& 0xFFFF

/-- AXIS_NEG: encode axis a as a negative-direction code. -/
def AXIS_NEG (a : Nat) : Nat := (a <<< 16) ||| 0xFFFF

/-- AXIS_POS: encode axis a as a positive-direction code. -/
def AXIS_POS (a : Nat) : Nat := a ||| 0xFFFF0000

/-- apple_joypad_button: false when the driver data is NULL, the key is
NO_BTN or encodes a hat direction; otherwise tests the cached button bit
for an in-range port and key < 32, and false for everything else. -/
def apple_joypad_button (apple : Option apple_input_data_t) (port : Nat) (joykey : Nat) : Bool :=
  match apple with
  | none => false
  | some a =>
    if joykey = NO_BTN then false
    else if GET_HAT_DIR joykey ≠ 0 then false
    else if port < MAX_PLAYERS ∧ joykey < 32 then
      decide ((a.buttons port) &&& (1 <<< joykey) ≠ 0)
    else false

/-- apple_joypad_axis: reads the cached axis row for the port — with no
bound check on the port — clamping a negative-direction read to at most 0
and a positive-direction read to at least 0; 0 when the driver data is
NULL, the code is AXIS_NONE, or neither direction index is below 4. -/
def apple_joypad_axis (apple : Option apple_input_data_t) (port : Nat) (joyaxis : Nat) : Int :=
  match apple with
  | none => 0
  | some a =>
    if joyaxis = AXIS_NONE then 0
    else if AXIS_NEG_GET joyaxis < 4 then
      let v := a.axes port (AXIS_NEG_GET joyaxis)
      if v < 0 then v else 0
    else if AXIS_POS_GET joyaxis < 4 then
      let v := a.axes port (AXIS_POS_GET joyaxis)
      if v > 0 then v else 0
    else 0

lemma find_vacant_aux_all_used (slots : List joypad_slot_t)
    (h : ∀ s ∈ slots, s.used = true) : find_vacant_aux slots = none := by
  induction slots with
  | nil => rfl
  | cons s rest ih =>
    have hs : s.used = true := h s (List.mem_cons_self s rest)
    have hr := ih (fun t ht => h t (List.mem_cons_of_mem s ht))
    simp [find_vacant_aux, hs, hr]

lemma find_vacant_aux_first (slots : List joypad_slot_t) (s : Nat)
    (hs : s < slots.length)
    (hbelow : ∀ i, i < s → (slots.getD i emptySlot).used = true)
    (hfree : (slots.getD s emptySlot).used = false) :
    find_vacant_aux slots = some (s, slots.set s emptySlot) := by
  induction slots generalizing s with
  | nil => simp at hs
  | cons a rest ih =>
    cases s with
    | zero =>
      have ha : a.used = false := by simpa using hfree
      simp [find_vacant_aux, ha]
    | succ t =>
      have ha : a.used = true := by simpa using hbelow 0 (Nat.succ_pos t)
      have ht : t < rest.length := by simpa using hs
      have hb : ∀ i, i < t → (rest.getD i emptySlot).used = true := by
        intro i hi
        simpa using hbelow (i + 1) (Nat.succ_lt_succ hi)
      have hf : (rest.getD t emptySlot).used = false := by simpa using hfree
      simp [find_vacant_aux, ha, ih t ht hb hf]

/-- C6: with every one of the MAX_PLAYERS slots occupied, connect finds no
vacant pad, returns -1, makes no backend call, and leaves the whole
registry — every previously allocated slot included — unchanged. -/
theorem connect_when_full (name : Option String) (slots : List joypad_slot_t)
    (_hlen : slots.length = MAX_PLAYERS)
    (hfull : ∀ s ∈ slots, s.used = true) :
    joypad_connection_connect name slots = (-1, slots, []) := by
  have haux := find_vacant_aux_all_used slots hfull
  unfold joypad_connection_connect find_vacant_pad
  rw [haux]
  norm_num

def used_plain_slot : joypad_slot_t :=
  { used := true, iface := none, data := none, is_gcapi := false }

def full_slots : List joypad_slot_t := List.replicate MAX_PLAYERS used_plain_slot

theorem connect_when_full_w :
    joypad_connection_connect none full_slots = (-1, full_slots, []) :=
  connect_when_full none full_slots (by decide) (by decide)

/-- C10: disconnect of an out-of-range pad, or of one whose slot is
unoccupied, is a no-op: the registry is returned unchanged and no backend
call is made. -/
theorem apple_joypad_disconnect_noop (slots : List joypad_slot_t) (pad : Nat)
    (h : MAX_PLAYERS ≤ pad ∨ (slots.getD pad emptySlot).used = false) :
    apple_joypad_disconnect slots pad = (slots, []) := by
  unfold apple_joypad_disconnect
  rw [if_neg]
  rintro ⟨h1, h2⟩
  rcases h with h | h
  · omega
  · rw [h] at h2
    exact Bool.false_ne_true h2

theorem apple_joypad_disconnect_noop_w :
    apple_joypad_disconnect initial_slots 20 = (initial_slots, []) :=
  apple_joypad_disconnect_noop initial_slots 20 (Or.inl (by decide))

/-- C9: the axis query is sign-clamped to the selected direction: a code
selecting a negative-direction axis (negative index below 4) yields at most
0, a code selecting a positive-direction axis (positive index below 4, with
no negative selection) yields at least 0, and any other code yields 0. -/
theorem apple_joypad_axis_sign_clamped (apple : Option apple_input_data_t)
    (port joyaxis : Nat) :
    (AXIS_NEG_GET joyaxis < 4 → apple_joypad_axis apple port joyaxis ≤ 0) ∧
    (4 ≤ AXIS_NEG_GET joyaxis → AXIS_POS_GET joyaxis < 4 →
       0 ≤ apple_joypad_axis apple port joyaxis) ∧
    (4 ≤ AXIS_NEG_GET joyaxis → 4 ≤ AXIS_POS_GET joyaxis →
       apple_joypad_axis apple port joyaxis = 0) := by
  rcases apple with _ | a
  · simp [apple_joypad_axis]
  · refine ⟨?_, ?_, ?_⟩
    · intro h1
      simp only [apple_joypad_axis]
      split_ifs <;> omega
    · intro h1 h2
      simp only [apple_joypad_axis]
      split_ifs <;> omega
    · intro h1 h2
      simp only [apple_joypad_axis]
      split_ifs <;> omega

theorem apple_joypad_axis_sign_clamped_w :
    apple_joypad_axis none 0 (AXIS_NEG 0) ≤ 0 :=
  (apple_joypad_axis_sign_clamped none 0 (AXIS_NEG 0)).1 (by decide)

/-- The process memory apple_joypad_axis reaches when handed an out-of-range
pad: the row at index MAX_PLAYERS lies beyond the axes array and here
happens to hold -7. -/
def oob_memory_apple : apple_input_data_t :=
  { buttons := fun _ => 0,
    axes := fun p a => if p = MAX_PLAYERS ∧ a = 0 then -7 else 0 }

/-- C1: the claim fails in the code for the axis capability:
apple_joypad_axis performs no pad-range validation, so at the out-of-range
pad MAX_PLAYERS it returns the sign-clamped value it reads out of the array
bounds (here -7) instead of the neutral default 0; button, set_rumble and
name do return their neutral defaults there without touching a backend. -/
theorem apple_joypad_axis_out_of_range_reads_oob :
    apple_joypad_axis (some oob_memory_apple) MAX_PLAYERS (AXIS_NEG 0) = -7 ∧
    apple_joypad_button (some oob_memory_apple) MAX_PLAYERS 0 = false ∧
    apple_joypad_rumble initial_slots MAX_PLAYERS retro_rumble_effect.strong 1 =
      (false, initial_slots, []) ∧
    apple_joypad_name MAX_PLAYERS = none := by
  refine ⟨by decide, by decide, by decide, rfl⟩

/-- C5 counterexample: in the zero-initialized registry slot 0 is unoccupied
(no hardware is reachable there), yet apple_joypad_query_pad answers
true: the function reports only pad < MAX_PLAYERS. -/
theorem apple_query_pad_ignores_occupancy_cx :
    apple_joypad_query_pad 0 = true ∧ (initial_slots.getD 0 emptySlot).used = false := by
  decide

def cx7_slots : List joypad_slot_t :=
  emptySlot :: used_plain_slot :: List.replicate 14 emptySlot

/-- C7 counterexample: slot 1 is occupied while slot 0 is vacant; releasing
slot 1 and then allocating yields index 0, not the released index 1. -/
theorem release_then_allocate_lower_slot_cx :
    (find_vacant_pad (apple_joypad_disconnect cx7_slots 1).1).1 = 0 ∧ ((0 : Int) ≠ 1) := by
  decide

/-- C7 amended: releasing occupied slot s and then allocating returns the
smallest free index — equal to s exactly when every slot below s is
occupied — and the reallocated slot observed by the new occupant is fully
zeroed. -/
theorem release_then_allocate_smallest_free (slots : List joypad_slot_t) (s : Nat)
    (hlen : slots.length = MAX_PLAYERS)
    (hs : s < MAX_PLAYERS)
    (hused : (slots.getD s emptySlot).used = true)
    (hbelow : ∀ i, i < s → (slots.getD i emptySlot).used = true) :
    find_vacant_pad (apple_joypad_disconnect slots s).1 =
      ((s : Int), (apple_joypad_disconnect slots s).1) ∧
    ((apple_joypad_disconnect slots s).1.getD s emptySlot) = emptySlot := by
  have hdis : (apple_joypad_disconnect slots s).1 = slots.set s emptySlot := by
    unfold apple_joypad_disconnect
    rw [if_pos ⟨hs, hused⟩]
  have hslen : s < slots.length := by omega
  have hget : ∀ slots2 : List joypad_slot_t, s < slots2.length →
      (slots2.set s emptySlot).getD s emptySlot = emptySlot := by
    intro slots2 h2
    rw [List.getD_eq_getElem?_getD, List.getElem?_set_eq_of_lt _ h2]
    rfl
  have hne : ∀ i, i ≠ s → ((slots.set s emptySlot).getD i emptySlot) = slots.getD i emptySlot := by
    intro i hi
    rw [List.getD_eq_getElem?_getD, List.getD_eq_getElem?_getD,
      List.getElem?_set_ne (by omega)]
  have haux : find_vacant_aux (slots.set s emptySlot) =
      some (s, (slots.set s emptySlot).set s emptySlot) := by
    apply find_vacant_aux_first
    · simpa using hslen
    · intro i hi
      rw [hne i (by omega)]
      exact hbelow i hi
    · rw [hget slots hslen]
      rfl
  rw [hdis]
  constructor
  · unfold find_vacant_pad
    rw [haux, List.set_set]
  · exact hget slots hslen

def w7_slots : List joypad_slot_t :=
  used_plain_slot :: used_plain_slot :: List.replicate 14 emptySlot

theorem release_then_allocate_smallest_free_w :
    find_vacant_pad (apple_joypad_disconnect w7_slots 1).1 =
      ((1 : Int), (apple_joypad_disconnect w7_slots 1).1) ∧
    ((apple_joypad_disconnect w7_slots 1).1.getD 1 emptySlot) = emptySlot :=
  release_then_allocate_smallest_free w7_slots 1 (by decide) (by decide) (by decide)
    (by intro i hi
        have hz : i = 0 := by omega
        subst hz
        decide)

/-- An occupied slot whose interface and device handle expose rumble. -/
def rumble_iface : pad_connection_interface :=
  { connectData := some 7, hasConnect := true, hasDisconnect := true,
    hasPacketHandler := true, hasSetRumble := true }

def cx2_slot : joypad_slot_t :=
  { used := true, iface := some rumble_iface, data := some 7, is_gcapi := false }

def cx2_slots : List joypad_slot_t := cx2_slot :: List.replicate 15 emptySlot

def isSetRumbleCall : BackendCall → Bool
  | BackendCall.setRumbleCall _ _ _ => true
  | _ => false

/-- C2 counterexample: slot 0 is occupied and its interface and device
handle expose rumble, yet disconnecting it emits only the disconnect hook
call — no zero-strength set_rumble call on either channel precedes the
clearing of the slot. -/
theorem apple_joypad_disconnect_no_rumble_stop_cx :
    (apple_joypad_disconnect cx2_slots 0).2 = [BackendCall.disconnectCall 7] ∧
    (apple_joypad_disconnect cx2_slots 0).2.filter isSetRumbleCall = [] := by
  decide

/-- C2 amended: the per-slot release (apple_joypad_disconnect) never stops
rumble — its backend calls contain no set_rumble call at all — while the
driver-wide apple_joypad_destroy emits the zero-strength strong and weak
set_rumble pair for every occupied slot whose interface has the hook
(without clearing any slot). -/
theorem release_vs_destroy_rumble_stop (slots : List joypad_slot_t) (pad : Nat)
    (s : joypad_slot_t) (f : pad_connection_interface)
    (hmem : s ∈ slots) (hused : s.used = true) (hf : s.iface = some f)
    (hr : f.hasSetRumble = true) :
    ((apple_joypad_disconnect slots pad).2.filter isSetRumbleCall = []) ∧
    BackendCall.setRumbleCall s.data retro_rumble_effect.strong 0 ∈
      apple_joypad_destroy slots ∧
    BackendCall.setRumbleCall s.data retro_rumble_effect.weak 0 ∈
      apple_joypad_destroy slots := by
  have hcalls : destroy_slot_calls s =
      [BackendCall.setRumbleCall s.data retro_rumble_effect.strong 0,
       BackendCall.setRumbleCall s.data retro_rumble_effect.weak 0] := by
    simp [destroy_slot_calls, hused, hf, hr]
  refine ⟨?_, ?_, ?_⟩
  · unfold apple_joypad_disconnect
    split_ifs
    · rcases h1 : (slots.getD pad emptySlot).iface with _ | g <;>
        rcases h2 : (slots.getD pad emptySlot).data with _ | d <;>
          simp only [h1, h2] <;>
            first
              | rfl
              | (split_ifs <;> simp [isSetRumbleCall, List.filter])
    · rfl
  · unfold apple_joypad_destroy
    rw [List.mem_flatten]
    exact ⟨destroy_slot_calls s, List.mem_map_of_mem _ hmem, by rw [hcalls]; simp⟩
  · unfold apple_joypad_destroy
    rw [List.mem_flatten]
    exact ⟨destroy_slot_calls s, List.mem_map_of_mem _ hmem, by rw [hcalls]; simp⟩

theorem release_vs_destroy_rumble_stop_w :
    BackendCall.setRumbleCall (some 7) retro_rumble_effect.strong 0 ∈
      apple_joypad_destroy cx2_slots :=
  (release_vs_destroy_rumble_stop cx2_slots 0 cx2_slot rumble_iface
    (List.mem_cons_self _ _) rfl rfl rfl).2.1

/-- XINPUT_VIBRATION: the cached motor speeds sent to XInputSetState. -/
structure XINPUT_VIBRATION where
  wLeftMotorSpeed : Nat
  wRightMotorSpeed : Nat
deriving DecidableEq, Repr

/-- XINPUT_GAMEPAD: the raw state block XInputGetStateEx fills. -/
structure XINPUT_GAMEPAD where
  wButtons : Nat
  bLeftTrigger : Nat
  bRightTrigger : Nat
  sThumbLX : Int
  sThumbLY : Int
  sThumbRX : Int
  sThumbRY : Int
deriving DecidableEq, Repr

structure XINPUT_STATE where
  dwPacketNumber : Nat
  Gamepad : XINPUT_GAMEPAD
deriving DecidableEq, Repr

/-- xinput_joypad_state: one entry of g_xinput_states[4]. -/
structure xinput_joypad_state where
  xstate : XINPUT_STATE
  connected : Bool
deriving DecidableEq, Repr

/-- The xinput driver globals the query and rumble paths touch, in the
HAVE_DINPUT configuration (the one in which both Windows drivers in src/
are compiled together).  The two 4-entry arrays are modelled as total
functions on Nat; g_xinput_pad_indexes is the MAX_USERS-entry alias table
dinput enumeration fills; hasSetState models g_XInputSetState != NULL. -/
structure XInputGlobals where
  g_xinput_states : Nat → xinput_joypad_state
  g_xinput_rumble_states : Nat → XINPUT_VIBRATION
  g_xinput_pad_indexes : Nat → Int
  hasSetState : Bool

/-- Modelled from the spec: the external collaborators the xinput driver
reaches — the dinput driver entry points living in dinput_joypad_inl.h
(not under src/) and the XInputSetState system call with its success
verdict. -/
structure XInputEnv where
  dinputHasSetRumble : Bool
  dinputSetRumble : Nat → retro_rumble_effect → Nat → Bool
  dinputQueryPad : Nat → Bool
  xinputSetStateOk : Nat → XINPUT_VIBRATION → Bool

/-- pad_index_to_xuser_index, HAVE_DINPUT variant: the alias-table entry. -/
def pad_index_to_xuser_index (g : XInputGlobals) (pad : Nat) : Int :=
  g.g_xinput_pad_indexes pad

/-- xinput_joypad_query_pad: the cached connected flag for an
xinput-owned pad, the dinput driver's answer otherwise. -/
def xinput_joypad_query_pad (env : XInputEnv) (g : XInputGlobals) (pad : Nat) : Bool :=
  let xuser := pad_index_to_xuser_index g pad
  if -1 < xuser then (g.g_xinput_states xuser.toNat).connected
  else env.dinputQueryPad pad

/-- xinput_joypad_rumble: a pad not owned by xinput is forwarded to the
dinput set_rumble hook when that hook exists (false otherwise).  For an
xinput-owned pad the requested strength is first written into the cached
vibration state — the left motor for the strong channel, the right for the
weak — and only then is g_XInputSetState checked: when it is NULL the call
returns false with the cache already mutated. -/
def xinput_joypad_rumble (env : XInputEnv) (g : XInputGlobals) (pad : Nat)
    (effect : retro_rumble_effect) (strength : Nat) : Bool × XInputGlobals :=
  let xuser := pad_index_to_xuser_index g pad
  if xuser = -1 then
    (if env.dinputHasSetRumble then env.dinputSetRumble pad effect strength else false, g)
  else
    let xu := xuser.toNat
    let v := g.g_xinput_rumble_states xu
    let v1 :=
      match effect with
      | retro_rumble_effect.strong => { v with wLeftMotorSpeed := strength }
      | retro_rumble_effect.weak => { v with wRightMotorSpeed := strength }
      | retro_rumble_effect.dummy => v
    let g1 := { g with
      g_xinput_rumble_states := fun i => if i = xu then v1 else g.g_xinput_rumble_states i }
    if g1.hasSetState = false then (false, g1)
    else (env.xinputSetStateOk xu (g1.g_xinput_rumble_states xu), g1)

def zero_vibration : XINPUT_VIBRATION := { wLeftMotorSpeed := 0, wRightMotorSpeed := 0 }

def zero_xinput_gamepad : XINPUT_GAMEPAD :=
  { wButtons := 0, bLeftTrigger := 0, bRightTrigger := 0,
    sThumbLX := 0, sThumbLY := 0, sThumbRX := 0, sThumbRY := 0 }

def zero_xinput_state : XINPUT_STATE := { dwPacketNumber := 0, Gamepad := zero_xinput_gamepad }

/-- Globals with pad 0 xinput-owned as user 0, a zero rumble cache, and no
usable XInputSetState function. -/
def cx3_globals : XInputGlobals :=
  { g_xinput_states := fun _ => { xstate := zero_xinput_state, connected := true },
    g_xinput_rumble_states := fun _ => zero_vibration,
    g_xinput_pad_indexes := fun i => if i = 0 then 0 else -1,
    hasSetState := false }

def cx3_env : XInputEnv :=
  { dinputHasSetRumble := false, dinputSetRumble := fun _ _ _ => false,
    dinputQueryPad := fun _ => false, xinputSetStateOk := fun _ _ => true }

/-- C3 counterexample: with no usable rumble function (g_XInputSetState is
NULL) a strong-channel request on xinput-owned pad 0 returns false, yet the
driver state is mutated: the cached left motor speed becomes the requested
strength 5, where it was 0 before the call. -/
theorem xinput_rumble_mutates_cache_cx :
    (xinput_joypad_rumble cx3_env cx3_globals 0 retro_rumble_effect.strong 5).1 = false ∧
    ((xinput_joypad_rumble cx3_env cx3_globals 0
        retro_rumble_effect.strong 5).2.g_xinput_rumble_states 0).wLeftMotorSpeed = 5 ∧
    (cx3_globals.g_xinput_rumble_states 0).wLeftMotorSpeed = 0 := by
  refine ⟨rfl, rfl, rfl⟩

/-- C3 amended: set_rumble on a pad without rumble support returns false;
the apple driver then leaves all state untouched, and so does the xinput
driver when the pad is not xinput-owned and the dinput hook is absent — but
for an xinput-owned pad with no usable rumble function the cached vibration
state is mutated to the requested strength before false is returned. -/
theorem set_rumble_unsupported_behavior :
    (∀ slots pad effect strength,
       (¬ (pad < MAX_PLAYERS ∧ (slots.getD pad emptySlot).used = true ∧
           ∃ f, (slots.getD pad emptySlot).iface = some f ∧ f.hasSetRumble = true)) →
       apple_joypad_rumble slots pad effect strength = (false, slots, [])) ∧
    (∀ env g pad effect strength, pad_index_to_xuser_index g pad = -1 →
       env.dinputHasSetRumble = false →
       xinput_joypad_rumble env g pad effect strength = (false, g)) ∧
    (∀ env g pad strength (xu : Nat), pad_index_to_xuser_index g pad = (xu : Int) →
       g.hasSetState = false →
       (xinput_joypad_rumble env g pad retro_rumble_effect.strong strength).1 = false ∧
       ((xinput_joypad_rumble env g pad retro_rumble_effect.strong
           strength).2.g_xinput_rumble_states xu).wLeftMotorSpeed = strength) := by
  refine ⟨?_, ?_, ?_⟩
  · intro slots pad effect strength h
    simp only [apple_joypad_rumble]
    by_cases hg : pad < MAX_PLAYERS ∧ (slots.getD pad emptySlot).used = true
    · rw [if_pos hg]
      rcases hi : (slots.getD pad emptySlot).iface with _ | f
      · rfl
      · by_cases hr : f.hasSetRumble = true
        · exact absurd ⟨hg.1, hg.2, f, hi, hr⟩ h
        · exact if_neg hr
    · rw [if_neg hg]
  · intro env g pad effect strength hx hd
    simp [xinput_joypad_rumble, hx, hd]
  · intro env g pad strength xu hx hss
    have hne : pad_index_to_xuser_index g pad ≠ -1 := by omega
    simp [xinput_joypad_rumble, hx, hne, hss]

theorem set_rumble_unsupported_behavior_w :
    apple_joypad_rumble initial_slots 0 retro_rumble_effect.strong 3 =
      (false, initial_slots, []) ∧
    xinput_joypad_rumble cx3_env cx3_globals 5 retro_rumble_effect.weak 3 =
      (false, cx3_globals) ∧
    (xinput_joypad_rumble cx3_env cx3_globals 0 retro_rumble_effect.strong 3).1 = false :=
  ⟨set_rumble_unsupported_behavior.1 initial_slots 0 retro_rumble_effect.strong 3
      (by rintro ⟨-, hu, -⟩; revert hu; decide),
   set_rumble_unsupported_behavior.2.1 cx3_env cx3_globals 5 retro_rumble_effect.weak 3
      (by decide) rfl,
   (set_rumble_unsupported_behavior.2.2 cx3_env cx3_globals 0 3 0 (by decide) rfl).1⟩

/-- C5 amended: query_pad does not report hardware reachability in the
apple driver — it answers true for every pad below MAX_PLAYERS and false
otherwise, regardless of slot occupancy — while the xinput driver answers
with the cached connected flag for an xinput-owned pad and defers to the
dinput driver for every other pad. -/
theorem query_pad_characterization :
    (∀ pad, pad < MAX_PLAYERS → apple_joypad_query_pad pad = true) ∧
    (∀ pad, MAX_PLAYERS ≤ pad → apple_joypad_query_pad pad = false) ∧
    (∀ env g pad (xu : Nat), pad_index_to_xuser_index g pad = (xu : Int) →
       xinput_joypad_query_pad env g pad = (g.g_xinput_states xu).connected) ∧
    (∀ env g pad, pad_index_to_xuser_index g pad = -1 →
       xinput_joypad_query_pad env g pad = env.dinputQueryPad pad) := by
  refine ⟨?_, ?_, ?_, ?_⟩
  · intro pad h
    simp [apple_joypad_query_pad, h]
  · intro pad h
    simp [apple_joypad_query_pad]
    omega
  · intro env g pad xu hx
    have hlt : (-1 : Int) < (xu : Int) := by omega
    simp [xinput_joypad_query_pad, hx, hlt]
  · intro env g pad hx
    simp [xinput_joypad_query_pad, hx]

theorem query_pad_characterization_w :
    apple_joypad_query_pad 3 = true ∧
    xinput_joypad_query_pad cx3_env cx3_globals 0 = true ∧
    xinput_joypad_query_pad cx3_env cx3_globals 5 = false :=
  ⟨query_pad_characterization.1 3 (by decide),
   by rw [query_pad_characterization.2.2.1 cx3_env cx3_globals 0 0 (by decide)]; rfl,
   by rw [query_pad_characterization.2.2.2 cx3_env cx3_globals 5 (by decide)]; rfl⟩

/-- One round of g_XInputGetStateEx readings: for each of the four XInput
users, the XINPUT_STATE the call writes into g_xinput_states[i].xstate and
whether it did not return ERROR_DEVICE_NOT_CONNECTED. -/
def XReading := Nat → XINPUT_STATE × Bool

/-- The g_xinput_states array after one poll loop: every entry carries the
fresh reading (on a connectivity change the connected flag is assigned;
otherwise the assignment is skipped but old and new values coincide). -/
def xinput_poll_states (g : Nat → xinput_joypad_state) (r : XReading) :
    Nat → xinput_joypad_state :=
  fun i => if i < 4 then { xstate := (r i).1, connected := (r i).2 } else g i

/-- The disconnect notification iteration i of the poll loop emits:
input_autoconfigure_disconnect(i, name) exactly when the cached flag said
connected and the fresh reading says not connected. -/
def xinput_poll_emit (nm : Nat → Option String) (g : Nat → xinput_joypad_state)
    (r : XReading) (i : Nat) : List (Nat × Option String) :=
  if (g i).connected = true ∧ (r i).2 = false then [(i, nm i)] else []

/-- xinput_joypad_poll, HAVE_DINPUT configuration, xinput half: the
for (i = 0; i < 4; ++i) loop unrolled (the trailing dinput_joypad.poll()
call is dinput_joypad_poll below).  nm models xinput_joypad_name, which on
this configuration forwards to dinput_joypad.name (not under src/). -/
def xinput_joypad_poll_xpart (nm : Nat → Option String) (g : Nat → xinput_joypad_state)
    (r : XReading) : (Nat → xinput_joypad_state) × List (Nat × Option String) :=
  (xinput_poll_states g r,
   xinput_poll_emit nm g r 0 ++ xinput_poll_emit nm g r 1 ++
   xinput_poll_emit nm g r 2 ++ xinput_poll_emit nm g r 3)

/-- A run of poll ticks (xinput half), accumulating notifications. -/
def xinput_poll_run (nm : Nat → Option String) (g : Nat → xinput_joypad_state) :
    List XReading → (Nat → xinput_joypad_state) × List (Nat × Option String)
  | [] => (g, [])
  | r :: rs =>
    let step := xinput_joypad_poll_xpart nm g r
    let rest := xinput_poll_run nm step.1 rs
    (rest.1, step.2 ++ rest.2)

/-- The number of true-to-false edges of an observed connectivity sequence
starting from the cached flag c. -/
def downTransitions : Bool → List Bool → Nat
  | _, [] => 0
  | c, r :: rs => (if c = true ∧ r = false then 1 else 0) + downTransitions r rs

lemma xinput_tick_filter_length (nm : Nat → Option String) (g : Nat → xinput_joypad_state)
    (r : XReading) (i : Nat) (hi : i < 4) :
    ((xinput_joypad_poll_xpart nm g r).2.filter (fun n => n.1 == i)).length
      = (if (g i).connected = true ∧ (r i).2 = false then 1 else 0) := by
  interval_cases i <;>
    · simp only [xinput_joypad_poll_xpart, xinput_poll_emit, List.filter_append]
      split_ifs <;> simp_all

lemma xinput_poll_run_count (nm : Nat → Option String) (rs : List XReading)
    (g : Nat → xinput_joypad_state) (i : Nat) (hi : i < 4) :
    ((xinput_poll_run nm g rs).2.filter (fun n => n.1 == i)).length
      = downTransitions ((g i).connected) (rs.map (fun r => (r i).2)) := by
  induction rs generalizing g with
  | nil => simp [xinput_poll_run, downTransitions]
  | cons r rs ih =>
    have hstep := ih (xinput_poll_states g r)
    have hconn : ((xinput_poll_states g r) i).connected = (r i).2 := by
      simp [xinput_poll_states, hi]
    have htick := xinput_tick_filter_length nm g r i hi
    simp only [xinput_poll_run, List.map_cons, downTransitions, List.filter_append,
      List.length_append]
    have hfst : (xinput_joypad_poll_xpart nm g r).1 = xinput_poll_states g r := rfl
    rw [htick, hfst, hstep, hconn]

/-- MAX_USERS (config.def.h, not under src/).  Modelled from the spec: the
fixed number of logical pads of the Windows drivers; 16 in this era.  No
claim depends on the numeric value. -/
def MAX_USERS : Nat := 16

/-- DIJOYSTATE2: the raw device-state block.  The three array members are
total functions on their index. -/
structure DIJOYSTATE2 where
  lX : Int
  lY : Int
  lZ : Int
  lRx : Int
  lRy : Int
  lRz : Int
  rglSlider : Nat → Int
  rgdwPOV : Nat → Nat
  rgbButtons : Nat → Nat
  lVX : Int
  lVY : Int
  lVZ : Int
  lVRx : Int
  lVRy : Int
  lVRz : Int
  rglVSlider : Nat → Int
  lAX : Int
  lAY : Int
  lAZ : Int
  lARx : Int
  lARy : Int
  lARz : Int
  rglASlider : Nat → Int
  lFX : Int
  lFY : Int
  lFZ : Int
  lFRx : Int
  lFRy : Int
  lFRz : Int
  rglFSlider : Nat → Int

/-- The field-by-field clearing dinput_joypad_poll performs on an entry
before polling it (the source zeroes every listed member; lZ is not in that
list and is left alone). -/
def dinput_poll_zero (js : DIJOYSTATE2) : DIJOYSTATE2 :=
  { js with
    lX := 0, lY := 0, lRx := 0, lRy := 0, lRz := 0,
    rglSlider := fun k => if k < 2 then 0 else js.rglSlider k,
    rgdwPOV := fun k => if k < 4 then 0 else js.rgdwPOV k,
    rgbButtons := fun k => if k < 128 then 0 else js.rgbButtons k,
    lVX := 0, lVY := 0, lVZ := 0, lVRx := 0, lVRy := 0, lVRz := 0,
    rglVSlider := fun k => if k < 2 then 0 else js.rglVSlider k,
    lAX := 0, lAY := 0, lAZ := 0, lARx := 0, lARy := 0, lARz := 0,
    rglASlider := fun k => if k < 2 then 0 else js.rglASlider k,
    lFX := 0, lFY := 0, lFZ := 0, lFRx := 0, lFRy := 0, lFRz := 0,
    rglFSlider := fun k => if k < 2 then 0 else js.rglFSlider k }

def zero_joy_state : DIJOYSTATE2 :=
  { lX := 0, lY := 0, lZ := 0, lRx := 0, lRy := 0, lRz := 0,
    rglSlider := fun _ => 0, rgdwPOV := fun _ => 0, rgbButtons := fun _ => 0,
    lVX := 0, lVY := 0, lVZ := 0, lVRx := 0, lVRy := 0, lVRz := 0,
    rglVSlider := fun _ => 0,
    lAX := 0, lAY := 0, lAZ := 0, lARx := 0, lARy := 0, lARz := 0,
    rglASlider := fun _ => 0,
    lFX := 0, lFY := 0, lFZ := 0, lFRx := 0, lFRy := 0, lFRz := 0,
    rglFSlider := fun _ => 0 }

/-- struct dinput_joypad_data: one entry of g_pads[MAX_USERS]; joypad is
the device handle (some id once IDirectInput8_CreateDevice succeeded). -/
structure dinput_joypad_data where
  joypad : Option Nat
  joy_state : DIJOYSTATE2
  joy_name : Option String
  joy_friendly_name : Option String
  vid : Nat
  pid : Nat

/-- The dinput driver globals together with the alias table and counters it
shares with the xinput driver (HAVE_XINPUT configuration). -/
structure DInputDriverState where
  g_pads : Nat → dinput_joypad_data
  g_joypad_cnt : Nat
  g_last_xinput_pad_idx : Nat
  g_xinput_pad_indexes : Nat → Int
  g_xinput_block_pads : Bool

/-- Outcome of IDirectInputDevice8_GetDeviceState. -/
inductive DIStateResult where
  | ok
  | inputLost
  | notAcquired
  | otherFail
deriving DecidableEq, Repr

/-- Modelled from the spec: the per-tick outcomes of the DirectInput COM
calls dinput_joypad_poll makes (external collaborators), per pad index. -/
structure DIPollEnv where
  pollFails : Nat → Bool
  acquireFails : Nat → Bool
  repollFails : Nat → Bool
  getStateResult : Nat → DIStateResult
  stateRead : Nat → DIJOYSTATE2

/-- One iteration (pad index i) of the dinput_joypad_poll loop: skipped
when the alias table marks the pad as xinput-owned or there is no device
handle; otherwise the cached state is cleared, the Poll/Acquire/Poll
sequence may abort the iteration, GetDeviceState fills the state on
success, and a result of DIERR_INPUTLOST or DIERR_NOTACQUIRED emits
input_autoconfigure_disconnect(i, joy_friendly_name) — with no latch, so
every such tick emits again. -/
def dinput_poll_step (env : DIPollEnv)
    (acc : DInputDriverState × List (Nat × Option String)) (i : Nat) :
    DInputDriverState × List (Nat × Option String) :=
  let st := acc.1
  if 0 ≤ st.g_xinput_pad_indexes i then acc
  else
    match (st.g_pads i).joypad with
    | none => acc
    | some _ =>
      let p0 := st.g_pads i
      let p1 := { p0 with joy_state := dinput_poll_zero p0.joy_state }
      let st1 := { st with g_pads := fun j => if j = i then p1 else st.g_pads j }
      if env.pollFails i = true ∧ (env.acquireFails i = true ∨ env.repollFails i = true) then
        (st1, acc.2)
      else
        let ret := env.getStateResult i
        let p2 := if ret = DIStateResult.ok then { p1 with joy_state := env.stateRead i } else p1
        let st2 := { st with g_pads := fun j => if j = i then p2 else st.g_pads j }
        if ret = DIStateResult.inputLost ∨ ret = DIStateResult.notAcquired then
          (st2, acc.2 ++ [(i, (st.g_pads i).joy_friendly_name)])
        else (st2, acc.2)

/-- dinput_joypad_poll: the loop for (i = 0; i < MAX_USERS; i++). -/
def dinput_joypad_poll (st : DInputDriverState) (env : DIPollEnv) :
    DInputDriverState × List (Nat × Option String) :=
  (List.range MAX_USERS).foldl (dinput_poll_step env) (st, [])

/-- A run of dinput poll ticks, accumulating notifications. -/
def dinput_poll_run (st : DInputDriverState) :
    List DIPollEnv → DInputDriverState × List (Nat × Option String)
  | [] => (st, [])
  | e :: es =>
    let step := dinput_joypad_poll st e
    let rest := dinput_poll_run step.1 es
    (rest.1, step.2 ++ rest.2)

def cx8_pad : dinput_joypad_data :=
  { joypad := some 1, joy_state := zero_joy_state, joy_name := some "Pad",
    joy_friendly_name := some "Pad", vid := 0x045E, pid := 0x028E }

/-- A driver state with one dinput-owned pad at slot 0 holding a device
handle, and no xinput-owned pad. -/
def cx8_state : DInputDriverState :=
  { g_pads := fun i => if i = 0 then cx8_pad else { cx8_pad with joypad := none },
    g_joypad_cnt := 1, g_last_xinput_pad_idx := 0,
    g_xinput_pad_indexes := fun _ => -1, g_xinput_block_pads := true }

/-- A tick on which reading the device state reports DIERR_INPUTLOST. -/
def cx8_env : DIPollEnv :=
  { pollFails := fun _ => false, acquireFails := fun _ => false,
    repollFails := fun _ => false, getStateResult := fun _ => DIStateResult.inputLost,
    stateRead := fun _ => zero_joy_state }

/-- C8 counterexample: two consecutive dinput poll ticks observe the same
already-disconnected device state (input lost on both), and each tick
emits its own disconnect notification for pad 0 — two notifications for a
single Connected-to-Disconnected transition. -/
theorem dinput_poll_duplicate_disconnect_cx :
    (dinput_poll_run cx8_state [cx8_env, cx8_env]).2 =
      [(0, some "Pad"), (0, some "Pad")] ∧
    ((dinput_poll_run cx8_state [cx8_env, cx8_env]).2.filter
        (fun n => n.1 == 0)).length = 2 := by
  constructor
  · rfl
  · rfl

lemma dinput_poll_step_static (env : DIPollEnv)
    (acc : DInputDriverState × List (Nat × Option String)) (i j : Nat) :
    (dinput_poll_step env acc i).1.g_xinput_pad_indexes = acc.1.g_xinput_pad_indexes ∧
    ((dinput_poll_step env acc i).1.g_pads j).joypad = (acc.1.g_pads j).joypad ∧
    ((dinput_poll_step env acc i).1.g_pads j).joy_friendly_name
      = (acc.1.g_pads j).joy_friendly_name := by
  by_cases h1 : 0 ≤ acc.1.g_xinput_pad_indexes i
  · simp [dinput_poll_step, h1]
  · rcases hj : (acc.1.g_pads i).joypad with _ | hdl
    · simp [dinput_poll_step, h1, hj]
    · by_cases h2 : env.pollFails i = true ∧
          (env.acquireFails i = true ∨ env.repollFails i = true)
      all_goals by_cases h3 : env.getStateResult i = DIStateResult.inputLost ∨
          env.getStateResult i = DIStateResult.notAcquired
      all_goals by_cases h4 : env.getStateResult i = DIStateResult.ok
      all_goals by_cases hji : j = i
      all_goals simp [dinput_poll_step, h1, hj, h2, h3, h4, hji]

lemma dinput_poll_step_mono (env : DIPollEnv)
    (acc : DInputDriverState × List (Nat × Option String)) (i : Nat) :
    ∃ t, (dinput_poll_step env acc i).2 = acc.2 ++ t := by
  by_cases h1 : 0 ≤ acc.1.g_xinput_pad_indexes i
  · exact ⟨[], by simp [dinput_poll_step, h1]⟩
  · rcases hj : (acc.1.g_pads i).joypad with _ | hdl
    · exact ⟨[], by simp [dinput_poll_step, h1, hj]⟩
    · by_cases h2 : env.pollFails i = true ∧
          (env.acquireFails i = true ∨ env.repollFails i = true)
      · exact ⟨[], by simp [dinput_poll_step, h1, hj, h2]⟩
      · by_cases h3 : env.getStateResult i = DIStateResult.inputLost ∨
            env.getStateResult i = DIStateResult.notAcquired
        · exact ⟨[(i, (acc.1.g_pads i).joy_friendly_name)],
            by simp [dinput_poll_step, h1, hj, h2, h3]⟩
        · exact ⟨[], by simp [dinput_poll_step, h1, hj, h2, h3]⟩

lemma dinput_poll_fold_mono (env : DIPollEnv) (l : List Nat)
    (acc : DInputDriverState × List (Nat × Option String)) :
    ∃ t, (l.foldl (dinput_poll_step env) acc).2 = acc.2 ++ t := by
  induction l generalizing acc with
  | nil => exact ⟨[], by simp⟩
  | cons a l ih =>
    obtain ⟨t1, h1⟩ := dinput_poll_step_mono env acc a
    obtain ⟨t2, h2⟩ := ih (dinput_poll_step env acc a)
    exact ⟨t1 ++ t2, by rw [List.foldl_cons, h2, h1, List.append_assoc]⟩

lemma dinput_poll_step_emits (env : DIPollEnv)
    (acc : DInputDriverState × List (Nat × Option String)) (i : Nat)
    (hidx : acc.1.g_xinput_pad_indexes i < 0)
    (hhdl : (acc.1.g_pads i).joypad ≠ none)
    (hpoll : ¬(env.pollFails i = true ∧
        (env.acquireFails i = true ∨ env.repollFails i = true)))
    (hret : env.getStateResult i = DIStateResult.inputLost ∨
        env.getStateResult i = DIStateResult.notAcquired) :
    (dinput_poll_step env acc i).2 = acc.2 ++ [(i, (acc.1.g_pads i).joy_friendly_name)] := by
  have h1 : ¬ (0 ≤ acc.1.g_xinput_pad_indexes i) := by omega
  rcases hj : (acc.1.g_pads i).joypad with _ | hdl
  · exact absurd hj hhdl
  · simp [dinput_poll_step, h1, hj, hpoll, hret]

lemma dinput_poll_fold_mem (env : DIPollEnv) (l : List Nat)
    (acc : DInputDriverState × List (Nat × Option String)) (i : Nat)
    (hmem : i ∈ l)
    (hidx : acc.1.g_xinput_pad_indexes i < 0)
    (hhdl : (acc.1.g_pads i).joypad ≠ none)
    (hpoll : ¬(env.pollFails i = true ∧
        (env.acquireFails i = true ∨ env.repollFails i = true)))
    (hret : env.getStateResult i = DIStateResult.inputLost ∨
        env.getStateResult i = DIStateResult.notAcquired) :
    (i, (acc.1.g_pads i).joy_friendly_name) ∈ (l.foldl (dinput_poll_step env) acc).2 := by
  induction l generalizing acc with
  | nil => cases hmem
  | cons a l ih =>
    rcases List.mem_cons.mp hmem with rfl | hmem2
    · have hem := dinput_poll_step_emits env acc i hidx hhdl hpoll hret
      obtain ⟨t, hmono⟩ := dinput_poll_fold_mono env l (dinput_poll_step env acc i)
      rw [List.foldl_cons, hmono, hem]
      simp
    · obtain ⟨s1, s2, s3⟩ := dinput_poll_step_static env acc a i
      have hrec := ih (dinput_poll_step env acc a) hmem2
        (by rw [s1]; exact hidx) (by rw [s2]; exact hhdl)
      rw [s3] at hrec
      rw [List.foldl_cons]
      exact hrec

/-- C8 amended: the XInput poll is edge-triggered — over any run of poll
ticks the number of disconnect notifications emitted for a pad equals the
number of Connected-to-Disconnected edges of its observed connectivity
sequence, so repeated already-disconnected observations add none — whereas
the DirectInput poll emits a disconnect notification on every tick whose
device-state read reports input lost or not acquired, with no
once-per-transition latch. -/
theorem disconnect_notification_emission :
    (∀ (nm : Nat → Option String) (g : Nat → xinput_joypad_state)
       (rs : List XReading) (i : Nat), i < 4 →
       ((xinput_poll_run nm g rs).2.filter (fun n => n.1 == i)).length
         = downTransitions ((g i).connected) (rs.map (fun r => (r i).2))) ∧
    (∀ (st : DInputDriverState) (env : DIPollEnv) (i : Nat), i < MAX_USERS →
       st.g_xinput_pad_indexes i < 0 →
       (st.g_pads i).joypad ≠ none →
       ¬(env.pollFails i = true ∧
           (env.acquireFails i = true ∨ env.repollFails i = true)) →
       (env.getStateResult i = DIStateResult.inputLost ∨
        env.getStateResult i = DIStateResult.notAcquired) →
       (i, (st.g_pads i).joy_friendly_name) ∈ (dinput_joypad_poll st env).2) := by
  constructor
  · intro nm g rs i hi
    exact xinput_poll_run_count nm rs g i hi
  · intro st env i hi hidx hhdl hpoll hret
    exact dinput_poll_fold_mem env (List.range MAX_USERS) (st, []) i
      (List.mem_range.mpr hi) hidx hhdl hpoll hret

theorem disconnect_notification_emission_w :
    ((xinput_poll_run (fun _ => none)
        (fun _ => { xstate := zero_xinput_state, connected := true }) []).2.filter
        (fun n => n.1 == 0)).length = 0 ∧
    (0, some "Pad") ∈ (dinput_joypad_poll cx8_state cx8_env).2 :=
  ⟨disconnect_notification_emission.1 (fun _ => none)
      (fun _ => { xstate := zero_xinput_state, connected := true }) [] 0 (by decide),
   disconnect_notification_emission.2 cx8_state cx8_env 0 (by decide) (by decide)
      (by decide) (by decide) (Or.inl rfl)⟩

/-- The product GUID as far as the enumeration callback inspects it: Data1
carries MAKELONG(vendor, product); pidvidTail records whether the remaining
GUID bytes match the standard {0x0000, 0x0000, "PIDVID"} pattern used by
the well-known-GUID table entries. -/
structure DIGUID where
  Data1 : Nat
  pidvidTail : Bool
deriving DecidableEq, Repr

/-- common_xinput_guids: the Data1 words MAKELONG(vid, pid) of the three
well-known XInput device GUIDs (Valve streaming pad, wired 360 pad,
wireless 360 pad). -/
def common_xinput_guid_data1 : List Nat := [0x11FF28DE, 0x02A1045E, 0x028E045E]

/-- guid_is_xinput_device: true on a well-known-GUID table hit; when the
table misses, the verdict of the RAWINPUT device-list scan over OS calls
(not under src/; modelled from the spec as the per-device rawProbe flag:
a HID device with matching vendor/product whose id contains IG_). -/
def guid_is_xinput_device (g : DIGUID) (rawProbe : Bool) : Bool :=
  (g.pidvidTail && common_xinput_guid_data1.contains g.Data1) || rawProbe

/-- DIDEVICEINSTANCE as far as the callback reads it, plus the outcomes of
the two external calls made for this device (IDirectInput8_CreateDevice
and the RAWINPUT probe). -/
structure DIDEVICEINSTANCE where
  guidInstance : Nat
  tszProductName : String
  tszInstanceName : String
  guidProduct : DIGUID
  rawProbe : Bool
  createDeviceOk : Bool
deriving DecidableEq, Repr

/-- Outward effects of the enumeration callback: the autoconfiguration
connect notification, and the device configuration performed only for
devices dinput truly drives (SetDataFormat, SetCooperativeLevel,
EnumObjects, rumble-effect creation). -/
inductive DInputEvent where
  | connectNotify (slot : Nat) (nameStr friendly : String) (vid pid : Nat)
  | deviceConfig (slot : Nat)
deriving DecidableEq, Repr

def eventSlot : DInputEvent → Nat
  | DInputEvent.connectNotify slot _ _ _ _ => slot
  | DInputEvent.deviceConfig slot => slot

/-- enum_joypad_cb: stops at MAX_USERS slots; skips a device whose handle
creation fails; otherwise stores the handle, names and vid/pid in the next
slot first, and only then checks the aliasing: an XInput device gets the
next shared XInput index (while the counter is below 4) and skips
configuration and the connect notification — but keeps the handle — while
every other device is configured and announced.  The slot counter advances
in both branches; the Bool result is DIENUM_CONTINUE. -/
def enum_joypad_cb (st : DInputDriverState) (inst : DIDEVICEINSTANCE) :
    DInputDriverState × List DInputEvent × Bool :=
  if st.g_joypad_cnt = MAX_USERS then (st, [], false)
  else if inst.createDeviceOk = false then (st, [], true)
  else
    let cnt := st.g_joypad_cnt
    let p1 := { st.g_pads cnt with
      joypad := some inst.guidInstance,
      joy_name := some inst.tszProductName,
      joy_friendly_name := some inst.tszInstanceName,
      vid := inst.guidProduct.Data1 % 0x10000,
      pid := inst.guidProduct.Data1 / 0x10000 }
    let st1 : DInputDriverState :=
      { st with g_pads := fun j => if j = cnt then p1 else st.g_pads j }
    if (st1.g_xinput_block_pads && guid_is_xinput_device inst.guidProduct inst.rawProbe)
        = true then
      let st2 : DInputDriverState :=
        if st1.g_last_xinput_pad_idx < 4 then
          { st1 with
            g_xinput_pad_indexes := fun j =>
              if j = cnt then (st1.g_last_xinput_pad_idx : Int)
              else st1.g_xinput_pad_indexes j,
            g_last_xinput_pad_idx := st1.g_last_xinput_pad_idx + 1 }
        else st1
      ({ st2 with g_joypad_cnt := cnt + 1 }, [], true)
    else
      ({ st1 with g_joypad_cnt := cnt + 1 },
       [DInputEvent.deviceConfig cnt,
        DInputEvent.connectNotify cnt inst.tszProductName inst.tszInstanceName
          (inst.guidProduct.Data1 % 0x10000) (inst.guidProduct.Data1 / 0x10000)], true)

/-- IDirectInput8_EnumDevices: feeds the attached devices, in platform
enumeration order, to the callback until it answers DIENUM_STOP. -/
def dinput_enum_devices (st : DInputDriverState) :
    List DIDEVICEINSTANCE → DInputDriverState × List DInputEvent
  | [] => (st, [])
  | d :: ds =>
    let r := enum_joypad_cb st d
    if r.2.2 = true then
      let rest := dinput_enum_devices r.1 ds
      (rest.1, r.2.1 ++ rest.2)
    else
      (r.1, r.2.1)

/-- The per-slot reset dinput_joypad_init performs before enumerating:
every alias-table entry back to -1, the shared counter back to 0, names to
NULL (g_joypad_cnt is not reset by this function). -/
def dinput_init_reset (st : DInputDriverState) : DInputDriverState :=
  { st with
    g_last_xinput_pad_idx := 0,
    g_xinput_pad_indexes := fun i => if i < MAX_USERS then -1 else st.g_xinput_pad_indexes i,
    g_pads := fun i =>
      if i < MAX_USERS then { st.g_pads i with joy_name := none, joy_friendly_name := none }
      else st.g_pads i }

/-- dinput_joypad_init: context creation succeeding (external, modelled as
such), the reset, then device enumeration. -/
def dinput_joypad_init (st : DInputDriverState) (devs : List DIDEVICEINSTANCE) :
    DInputDriverState × List DInputEvent :=
  dinput_enum_devices (dinput_init_reset st) devs

def dinput_zero_pad : dinput_joypad_data :=
  { joypad := none, joy_state := zero_joy_state, joy_name := none,
    joy_friendly_name := none, vid := 0, pid := 0 }

/-- The Windows driver pair at program start (static zero initialization:
all alias-table entries are 0, the slot counter 0), with
g_xinput_block_pads as set by xinput_joypad_init before it calls dinput
init. -/
def dinput_start_state (bp : Bool) : DInputDriverState :=
  { g_pads := fun _ => dinput_zero_pad, g_joypad_cnt := 0,
    g_last_xinput_pad_idx := 0, g_xinput_pad_indexes := fun _ => 0,
    g_xinput_block_pads := bp }

/-- dinput initialization from program start over a given device list. -/
def dinput_init_result (bp : Bool) (devs : List DIDEVICEINSTANCE) :
    DInputDriverState × List DInputEvent :=
  dinput_joypad_init (dinput_start_state bp) devs

/-- A wireless 360 pad: its product GUID sits in the well-known table, so
the resolver flags it as aliased without the RAWINPUT probe. -/
def cx4_device : DIDEVICEINSTANCE :=
  { guidInstance := 7, tszProductName := "XBOX 360 For Windows (Controller)",
    tszInstanceName := "Controller (XBOX 360 For Windows)",
    guidProduct := { Data1 := 0x028E045E, pidvidTail := true },
    rawProbe := false, createDeviceOk := true }

/-- C4 counterexample: enumerating a single aliased XInput device: the
resolver flags it (it receives XInput index 0), yet the DirectInput
backend has assigned it a local device handle — CreateDevice runs before
the aliasing check and the handle stays in g_pads[0].joypad. -/
theorem dinput_creates_handle_for_aliased_cx :
    (dinput_init_result true [cx4_device]).1.g_xinput_pad_indexes 0 = 0 ∧
    ((dinput_init_result true [cx4_device]).1.g_pads 0).joypad = some 7 := by
  constructor <;> rfl

/-- Invariant of the enumeration: the slot counter stays in range, the
alias table holds each assigned XInput index exactly once and they are
exactly [0, counter), an aliased slot keeps its device handle and has
received neither configuration nor a connect notification, untouched slots
are unassigned, and every emitted event concerns an already-visited slot. -/
structure DIEnumInv (st : DInputDriverState) (evs : List DInputEvent) : Prop where
  cnt_le : st.g_joypad_cnt ≤ MAX_USERS
  assigned : ∀ i, i < MAX_USERS → st.g_xinput_pad_indexes i ≠ -1 →
    i < st.g_joypad_cnt ∧ 0 ≤ st.g_xinput_pad_indexes i ∧
      st.g_xinput_pad_indexes i < (st.g_last_xinput_pad_idx : Int)
  surj : ∀ k : Nat, k < st.g_last_xinput_pad_idx →
    ∃ i, i < st.g_joypad_cnt ∧ st.g_xinput_pad_indexes i = (k : Int)
  inj : ∀ i j, i < MAX_USERS → j < MAX_USERS → st.g_xinput_pad_indexes i ≠ -1 →
    st.g_xinput_pad_indexes i = st.g_xinput_pad_indexes j → i = j
  aliased : ∀ i, i < MAX_USERS → 0 ≤ st.g_xinput_pad_indexes i →
    (st.g_pads i).joypad ≠ none ∧ ∀ e ∈ evs, eventSlot e ≠ i
  beyond : ∀ i, st.g_joypad_cnt ≤ i → i < MAX_USERS → st.g_xinput_pad_indexes i = -1
  ev_lt : ∀ e ∈ evs, eventSlot e < st.g_joypad_cnt

lemma enum_joypad_cb_inv (st : DInputDriverState) (inst : DIDEVICEINSTANCE)
    (evs : List DInputEvent) (hinv : DIEnumInv st evs) :
    DIEnumInv (enum_joypad_cb st inst).1 (evs ++ (enum_joypad_cb st inst).2.1) := by
  obtain ⟨hcnt, hasg, hsurj, hinj, hal, hbey, hev⟩ := hinv
  by_cases hfull : st.g_joypad_cnt = MAX_USERS
  · rw [show enum_joypad_cb st inst = (st, [], false) from by simp [enum_joypad_cb, hfull]]
    show DIEnumInv st (evs ++ [])
    rw [List.append_nil]
    exact ⟨hcnt, hasg, hsurj, hinj, hal, hbey, hev⟩
  · have hlt : st.g_joypad_cnt < MAX_USERS := Nat.lt_of_le_of_ne hcnt hfull
    by_cases hok : inst.createDeviceOk = false
    · rw [show enum_joypad_cb st inst = (st, [], true) from by
        simp [enum_joypad_cb, hfull, hok]]
      show DIEnumInv st (evs ++ [])
      rw [List.append_nil]
      exact ⟨hcnt, hasg, hsurj, hinj, hal, hbey, hev⟩
    · by_cases hbx : (st.g_xinput_block_pads &&
          guid_is_xinput_device inst.guidProduct inst.rawProbe) = true
      · by_cases hlast : st.g_last_xinput_pad_idx < 4
        · rw [show enum_joypad_cb st inst =
            ({ g_pads := fun j => if j = st.g_joypad_cnt then
                 { st.g_pads st.g_joypad_cnt with
                   joypad := some inst.guidInstance,
                   joy_name := some inst.tszProductName,
                   joy_friendly_name := some inst.tszInstanceName,
                   vid := inst.guidProduct.Data1 % 0x10000,
                   pid := inst.guidProduct.Data1 / 0x10000 }
               else st.g_pads j,
               g_joypad_cnt := st.g_joypad_cnt + 1,
               g_last_xinput_pad_idx := st.g_last_xinput_pad_idx + 1,
               g_xinput_pad_indexes := fun j =>
                 if j = st.g_joypad_cnt then (st.g_last_xinput_pad_idx : Int)
                 else st.g_xinput_pad_indexes j,
               g_xinput_block_pads := st.g_xinput_block_pads }, [], true) from by
            simp [enum_joypad_cb, hfull, hok, hbx, hlast]]
          show DIEnumInv _ (evs ++ [])
          rw [List.append_nil]
          refine ⟨?_, ?_, ?_, ?_, ?_, ?_, ?_⟩
          · show st.g_joypad_cnt + 1 ≤ MAX_USERS
            omega
          · intro i hi hne
            dsimp only at hne ⊢
            by_cases hic : i = st.g_joypad_cnt
            · subst hic
              rw [if_pos rfl]
              refine ⟨by omega, by omega, by omega⟩
            · rw [if_neg hic] at hne ⊢
              obtain ⟨h1, h2, h3⟩ := hasg i hi hne
              refine ⟨by omega, h2, by omega⟩
          · intro k hk
            dsimp only at hk ⊢
            by_cases hkl : k = st.g_last_xinput_pad_idx
            · subst hkl
              exact ⟨st.g_joypad_cnt, by omega, by rw [if_pos rfl]⟩
            · have hk2 : k < st.g_last_xinput_pad_idx := by omega
              obtain ⟨i, hi1, hi2⟩ := hsurj k hk2
              have hic : i ≠ st.g_joypad_cnt := by omega
              exact ⟨i, by omega, by rw [if_neg hic]; exact hi2⟩
          · intro i j hi hj hne heq
            dsimp only at hne heq
            by_cases hic : i = st.g_joypad_cnt <;> by_cases hjc : j = st.g_joypad_cnt
            · rw [hic, hjc]
            · exfalso
              subst hic
              rw [if_pos rfl, if_neg hjc] at heq
              have hjne : st.g_xinput_pad_indexes j ≠ -1 := by omega
              obtain ⟨-, -, h3⟩ := hasg j hj hjne
              omega
            · exfalso
              subst hjc
              rw [if_neg hic, if_pos rfl] at heq
              rw [if_neg hic] at hne
              obtain ⟨-, -, h3⟩ := hasg i hi hne
              omega
            · rw [if_neg hic, if_neg hjc] at heq
              rw [if_neg hic] at hne
              exact hinj i j hi hj hne heq
          · intro i hi h0
            dsimp only at h0 ⊢
            by_cases hic : i = st.g_joypad_cnt
            · subst hic
              rw [if_pos rfl]
              refine ⟨by simp, ?_⟩
              intro e he
              have := hev e he
              omega
            · rw [if_neg hic] at h0 ⊢
              exact hal i hi h0
          · intro i h1 h2
            dsimp only at h1 ⊢
            rw [if_neg (by omega : ¬ i = st.g_joypad_cnt)]
            exact hbey i (by omega) h2
          · intro e he
            dsimp only
            exact Nat.lt_succ_of_lt (hev e he)
        · rw [show enum_joypad_cb st inst =
            ({ g_pads := fun j => if j = st.g_joypad_cnt then
                 { st.g_pads st.g_joypad_cnt with
                   joypad := some inst.guidInstance,
                   joy_name := some inst.tszProductName,
                   joy_friendly_name := some inst.tszInstanceName,
                   vid := inst.guidProduct.Data1 % 0x10000,
                   pid := inst.guidProduct.Data1 / 0x10000 }
               else st.g_pads j,
               g_joypad_cnt := st.g_joypad_cnt + 1,
               g_last_xinput_pad_idx := st.g_last_xinput_pad_idx,
               g_xinput_pad_indexes := st.g_xinput_pad_indexes,
               g_xinput_block_pads := st.g_xinput_block_pads }, [], true) from by
            simp [enum_joypad_cb, hfull, hok, hbx, hlast]]
          show DIEnumInv _ (evs ++ [])
          rw [List.append_nil]
          refine ⟨?_, ?_, ?_, ?_, ?_, ?_, ?_⟩
          · show st.g_joypad_cnt + 1 ≤ MAX_USERS
            omega
          · intro i hi hne
            dsimp only at hne ⊢
            obtain ⟨h1, h2, h3⟩ := hasg i hi hne
            exact ⟨by omega, h2, h3⟩
          · intro k hk
            dsimp only at hk ⊢
            obtain ⟨i, hi1, hi2⟩ := hsurj k hk
            exact ⟨i, by omega, hi2⟩
          · intro i j hi hj hne heq
            dsimp only at hne heq
            exact hinj i j hi hj hne heq
          · intro i hi h0
            dsimp only at h0 ⊢
            have hic : i ≠ st.g_joypad_cnt := by
              intro h
              subst h
              rw [hbey st.g_joypad_cnt le_rfl hlt] at h0
              omega
            rw [if_neg hic]
            exact hal i hi h0
          · intro i h1 h2
            dsimp only at h1 ⊢
            exact hbey i (by omega) h2
          · intro e he
            dsimp only
            exact Nat.lt_succ_of_lt (hev e he)
      · rw [show enum_joypad_cb st inst =
          ({ g_pads := fun j => if j = st.g_joypad_cnt then
               { st.g_pads st.g_joypad_cnt with
                 joypad := some inst.guidInstance,
                 joy_name := some inst.tszProductName,
                 joy_friendly_name := some inst.tszInstanceName,
                 vid := inst.guidProduct.Data1 % 0x10000,
                 pid := inst.guidProduct.Data1 / 0x10000 }
             else st.g_pads j,
             g_joypad_cnt := st.g_joypad_cnt + 1,
             g_last_xinput_pad_idx := st.g_last_xinput_pad_idx,
             g_xinput_pad_indexes := st.g_xinput_pad_indexes,
             g_xinput_block_pads := st.g_xinput_block_pads },
           [DInputEvent.deviceConfig st.g_joypad_cnt,
            DInputEvent.connectNotify st.g_joypad_cnt inst.tszProductName
              inst.tszInstanceName (inst.guidProduct.Data1 % 0x10000)
              (inst.guidProduct.Data1 / 0x10000)], true) from by
          simp [enum_joypad_cb, hfull, hok, hbx]]
        refine ⟨?_, ?_, ?_, ?_, ?_, ?_, ?_⟩
        · show st.g_joypad_cnt + 1 ≤ MAX_USERS
          omega
        · intro i hi hne
          dsimp only at hne ⊢
          obtain ⟨h1, h2, h3⟩ := hasg i hi hne
          exact ⟨by omega, h2, h3⟩
        · intro k hk
          dsimp only at hk ⊢
          obtain ⟨i, hi1, hi2⟩ := hsurj k hk
          exact ⟨i, by omega, hi2⟩
        · intro i j hi hj hne heq
          dsimp only at hne heq
          exact hinj i j hi hj hne heq
        · intro i hi h0
          dsimp only at h0 ⊢
          have hic : i ≠ st.g_joypad_cnt := by
            intro h
            subst h
            rw [hbey st.g_joypad_cnt le_rfl hlt] at h0
            omega
          rw [if_neg hic]
          refine ⟨(hal i hi h0).1, ?_⟩
          intro e he
          rcases List.mem_append.mp he with hold | hnew
          · exact (hal i hi h0).2 e hold
          · simp only [List.mem_cons, List.not_mem_nil, or_false] at hnew
            rcases hnew with h | h
            · rw [h]
              exact fun hx => hic hx.symm
            · rw [h]
              exact fun hx => hic hx.symm
        · intro i h1 h2
          dsimp only at h1 ⊢
          exact hbey i (by omega) h2
        · intro e he
          dsimp only
          rcases List.mem_append.mp he with hold | hnew
          · exact Nat.lt_succ_of_lt (hev e hold)
          · simp only [List.mem_cons, List.not_mem_nil, or_false] at hnew
            rcases hnew with h | h
            · rw [h]
              exact Nat.lt_succ_self _
            · rw [h]
              exact Nat.lt_succ_self _

lemma dinput_enum_inv (devs : List DIDEVICEINSTANCE) :
    ∀ st evs, DIEnumInv st evs →
      DIEnumInv (dinput_enum_devices st devs).1 (evs ++ (dinput_enum_devices st devs).2) := by
  induction devs with
  | nil =>
    intro st evs h
    show DIEnumInv st (evs ++ [])
    rw [List.append_nil]
    exact h
  | cons d ds ih =>
    intro st evs h
    have hstep := enum_joypad_cb_inv st d evs h
    by_cases hc : (enum_joypad_cb st d).2.2 = true
    · have hrec := ih (enum_joypad_cb st d).1 (evs ++ (enum_joypad_cb st d).2.1) hstep
      simp only [dinput_enum_devices, hc, if_true]
      rw [← List.append_assoc]
      exact hrec
    · simp only [dinput_enum_devices]
      rw [if_neg hc]
      exact hstep

lemma dinput_start_inv (bp : Bool) :
    DIEnumInv (dinput_init_reset (dinput_start_state bp)) [] := by
  refine ⟨?_, ?_, ?_, ?_, ?_, ?_, ?_⟩
  · show (0 : Nat) ≤ MAX_USERS
    exact Nat.zero_le _
  · intro i hi hne
    exfalso
    apply hne
    show (if i < MAX_USERS then (-1 : Int) else (dinput_start_state bp).g_xinput_pad_indexes i)
      = -1
    rw [if_pos hi]
  · intro k hk
    have hz : (dinput_init_reset (dinput_start_state bp)).g_last_xinput_pad_idx = 0 := rfl
    rw [hz] at hk
    exact absurd hk (by omega)
  · intro i j hi hj hne heq
    exfalso
    apply hne
    show (if i < MAX_USERS then (-1 : Int) else (dinput_start_state bp).g_xinput_pad_indexes i)
      = -1
    rw [if_pos hi]
  · intro i hi h0
    exfalso
    have hx : (if i < MAX_USERS then (-1 : Int)
        else (dinput_start_state bp).g_xinput_pad_indexes i) = -1 := by
      rw [if_pos hi]
    have h0x : (0 : Int) ≤
        (if i < MAX_USERS then (-1 : Int)
         else (dinput_start_state bp).g_xinput_pad_indexes i) := h0
    rw [hx] at h0x
    omega
  · intro i h1 h2
    show (if i < MAX_USERS then (-1 : Int) else (dinput_start_state bp).g_xinput_pad_indexes i)
      = -1
    rw [if_pos h2]
  · intro e he
    cases he

/-- C4 amended: the non-owning DirectInput backend does create and keep a
local device handle for every device the resolver flags as aliased — only
the data-format setup, rumble-effect creation and connect notification are
skipped for it — while the owning backend's shared next-owned-index
counter assigns the aliased devices pairwise-distinct indices that are
exactly the interval [0, counter), so none is skipped and none
duplicated. -/
theorem alias_index_assignment (bp : Bool) (devs : List DIDEVICEINSTANCE) :
    (∀ i j, i < MAX_USERS → j < MAX_USERS →
       (dinput_init_result bp devs).1.g_xinput_pad_indexes i ≠ -1 →
       (dinput_init_result bp devs).1.g_xinput_pad_indexes i =
         (dinput_init_result bp devs).1.g_xinput_pad_indexes j → i = j) ∧
    (∀ k : Nat, (∃ i, i < MAX_USERS ∧
         (dinput_init_result bp devs).1.g_xinput_pad_indexes i = (k : Int)) ↔
       k < (dinput_init_result bp devs).1.g_last_xinput_pad_idx) ∧
    (∀ i, i < MAX_USERS → 0 ≤ (dinput_init_result bp devs).1.g_xinput_pad_indexes i →
       ((dinput_init_result bp devs).1.g_pads i).joypad ≠ none ∧
       ∀ e ∈ (dinput_init_result bp devs).2, eventSlot e ≠ i) := by
  have h0 := dinput_enum_inv devs (dinput_init_reset (dinput_start_state bp)) []
    (dinput_start_inv bp)
  rw [List.nil_append] at h0
  have h : DIEnumInv (dinput_init_result bp devs).1 (dinput_init_result bp devs).2 := h0
  obtain ⟨hcnt, hasg, hsurj, hinj, hal, hbey, hev⟩ := h
  refine ⟨?_, ?_, ?_⟩
  · intro i j hi hj hne heq
    exact hinj i j hi hj hne heq
  · intro k
    constructor
    · rintro ⟨i, hi, hik⟩
      have hne : (dinput_init_result bp devs).1.g_xinput_pad_indexes i ≠ -1 := by
        rw [hik]
        omega
      obtain ⟨-, -, h3⟩ := hasg i hi hne
      rw [hik] at h3
      omega
    · intro hk
      obtain ⟨i, hicnt, hik⟩ := hsurj k hk
      exact ⟨i, Nat.lt_of_lt_of_le hicnt hcnt, hik⟩
  · intro i hi hpos
    exact hal i hi hpos

theorem alias_index_assignment_w :
    ((dinput_init_result true [cx4_device]).1.g_pads 0).joypad ≠ none :=
  ((alias_index_assignment true [cx4_device]).2.2 0 (by decide) (by decide)).1
